import Mathlib

/-!
Verification development for a Telegram-to-Blogger movie-post bot
(sources: bot_handlers.py, template_processor.py, blogger_client.py).

The Python sources are shallowly embedded below.  Pure string work is
translated to executable Lean functions over `String` / `List Char`;
the Python string primitives used by the sources (`in`, `split`, `strip`,
`replace`, slicing, `float(...)`) are modelled by hand so that every
definition reduces inside the kernel.  Stateful conversation handling
(`BotHandlers.handle_text` and friends) becomes explicit state passing on
a `Session` value; the effects of each handler (messages sent back to the
user) are reified in a `Reply` value.  External I/O (the template file on
disk, the Google OAuth handshake and the remote create-post HTTP call)
is parameterised: the embedded functions take the outcome of each external
interaction as an argument and we prove how the code reacts to it.
-/

/-! ## Python string primitives, modelled on `List Char` -/

/-- Membership test used by Python's `needle in hay` on the prefix level:
`listPrefixOf n h` is true when `n` is a prefix of `h`. -/
def listPrefixOf : List Char → List Char → Bool
  | [], _ => true
  | _ :: _, [] => false
  | a :: as, b :: bs => a == b && listPrefixOf as bs

/-- Python's substring test `needle in hay` (on code-point lists). -/
def listContains (needle : List Char) : List Char → Bool
  | [] => listPrefixOf needle []
  | c :: t => listPrefixOf needle (c :: t) || listContains needle t

/-- Python's `needle in hay` on strings, as a proposition. -/
def SubStr (needle hay : String) : Prop := listContains needle.data hay.data = true

instance (needle hay : String) : Decidable (SubStr needle hay) :=
  inferInstanceAs (Decidable (_ = true))

/-- Fuelled core of Python's `str.split(sep)` for a non-empty separator:
splits on every non-overlapping occurrence of `sep`, scanning left to
right.  The fuel is always instantiated with the length of the input, which
suffices because every step consumes at least one character. -/
def pySplitAux (sep : List Char) : Nat → List Char → List (List Char)
  | _, [] => [[]]
  | 0, l => [l]
  | fuel + 1, c :: rest =>
    if !sep.isEmpty && listPrefixOf sep (c :: rest) then
      [] :: pySplitAux sep fuel (List.drop (sep.length - 1) rest)
    else
      match pySplitAux sep fuel rest with
      | [] => [c] :: []
      | h :: t => (c :: h) :: t

/-- Python's `str.split(sep)` on code-point lists. -/
def pySplit (sep l : List Char) : List (List Char) := pySplitAux sep l.length l

/-- Python's `s.split(sep)` on strings. -/
def pySplitStr (s sep : String) : List String := (pySplit sep.data s.data).map String.mk

/-- The whitespace characters stripped by Python's `str.strip()`
(ASCII part; the sources never feed exotic Unicode whitespace). -/
def isPySpace (c : Char) : Bool :=
  c == ' ' || c == '\t' || c == '\n' || c == '\r' || c == '\x0b' || c == '\x0c'

/-- Python's `str.strip()`. -/
def pyStrip (s : String) : String :=
  String.mk (((s.data.dropWhile isPySpace).reverse.dropWhile isPySpace).reverse)

/-- Joins a list of strings with a separator (used to model `str.replace`). -/
def joinWith (sep : String) : List String → String
  | [] => ""
  | [x] => x
  | x :: xs => x ++ sep ++ joinWith sep xs

/-- Python's `s.replace(old, new)` for a non-empty `old`: replace every
non-overlapping occurrence, left to right. -/
def strReplace (s old new : String) : String := joinWith new (pySplitStr s old)

/-- ASCII lower-casing of one character (models Python's case-insensitive
handling of `inf` / `nan` spellings inside `float`). -/
def asciiLower (c : Char) : Char :=
  if 'A' ≤ c && c ≤ 'Z' then Char.ofNat (c.toNat + 32) else c

/-- Python `dict` lookup `d.get(k, dflt)` for the insertion-ordered string
dictionaries used by the bot (`user_state['data']`). -/
def dictGet (d : List (String × String)) (k dflt : String) : String :=
  match d with
  | [] => dflt
  | (k', v) :: rest => if k' = k then v else dictGet rest k dflt

/-- Python `dict` lookup `d.get(k)` returning `None` when absent. -/
def dictLookup (d : List (String × String)) (k : String) : Option String :=
  match d with
  | [] => none
  | (k', v) :: rest => if k' = k then some v else dictLookup rest k

/-- Python `dict` assignment `d[k] = v`: updates in place if the key exists,
otherwise appends (insertion order preserved, like CPython dicts). -/
def dictSet (d : List (String × String)) (k v : String) : List (String × String) :=
  match d with
  | [] => [(k, v)]
  | (k', v') :: rest => if k' = k then (k, v) :: rest else (k', v') :: dictSet rest k v

/-! ## Model of Python's `float(string)` parser

`BotHandlers._validate_input` calls `float(user_input)` on the rating.
We model the accepted grammar exactly (optional whitespace and sign;
`inf` / `infinity` / `nan` case-insensitively; decimal literals with an
optional fraction, exponent and digit-group underscores) but give decimal
literals exact decimal semantics — `finite num den10` denotes the value
`num / 10 ^ den10`; rounding to binary64 is not modelled.  The special
values `nan`, `inf`, `-inf` are modelled explicitly together with
IEEE-754 comparison behaviour (every comparison with NaN is false),
which is what the rating bound check in the source exercises. -/

inductive PyFloat where
  | nan : PyFloat
  | inf : PyFloat
  | neginf : PyFloat
  | finite : Int → Nat → PyFloat
deriving DecidableEq

/-- IEEE-754 `<` on the parsed value: any comparison involving NaN is
false; finite values are compared by cross-multiplying the power-of-ten
denominators. -/
def PyFloat.ltB : PyFloat → PyFloat → Bool
  | .nan, _ => false
  | _, .nan => false
  | .neginf, .neginf => false
  | .neginf, _ => true
  | _, .neginf => false
  | .inf, _ => false
  | .finite _ _, .inf => true
  | .finite a sa, .finite b sb => decide (a * (10 : Int) ^ sb < b * (10 : Int) ^ sa)

def isDigitC (c : Char) : Bool := '0' ≤ c && c ≤ '9'

def allDigits (l : List Char) : Bool := l.all isDigitC

def digitsToNat (l : List Char) : Nat := l.foldl (fun a c => 10 * a + (c.toNat - 48)) 0

/-- Every underscore in a Python numeric literal must sit directly between
two digits. -/
def underscoreOkAux : Option Char → List Char → Bool
  | _, [] => true
  | prev, c :: rest =>
    if c == '_' then
      (match prev with | some p => isDigitC p | none => false)
        && (match rest with | r :: _ => isDigitC r | [] => false)
        && underscoreOkAux (some c) rest
    else underscoreOkAux (some c) rest

def underscoreOk (l : List Char) : Bool := underscoreOkAux none l

/-- Mantissa of a decimal literal: digits with an optional decimal point,
at least one digit overall; the result `(m, s)` denotes `m / 10 ^ s`. -/
def parseMantissa (l : List Char) : Option (Nat × Nat) :=
  match pySplit ['.'] l with
  | [ip] => if !ip.isEmpty && allDigits ip then some (digitsToNat ip, 0) else none
  | [ip, fp] =>
    if (!ip.isEmpty || !fp.isEmpty) && allDigits ip && allDigits fp then
      some (digitsToNat (ip ++ fp), fp.length)
    else none
  | _ => none

/-- Exponent part of a decimal literal: optional sign, then digits. -/
def parseExp (l : List Char) : Option Int :=
  match l with
  | '+' :: r => if !r.isEmpty && allDigits r then some ((digitsToNat r : Int)) else none
  | '-' :: r => if !r.isEmpty && allDigits r then some (-(digitsToNat r : Int)) else none
  | r => if !r.isEmpty && allDigits r then some ((digitsToNat r : Int)) else none

/-- Folds a power-of-ten exponent into the decimal pair `(m, s)`. -/
def applyExp (m s : Nat) (ex : Int) : Nat × Nat :=
  if 0 ≤ ex then (m * 10 ^ ex.toNat, s) else (m, s + (-ex).toNat)

/-- Attaches the sign to a parsed decimal pair. -/
def mkFinite (neg : Bool) (m s : Nat) : PyFloat :=
  PyFloat.finite (if neg then -(m : Int) else (m : Int)) s

/-- Body of the float parser, applied after the sign has been stripped. -/
def pyFloatParseCore (neg : Bool) (body : List Char) : Option PyFloat :=
  if body = ("inf").data || body = ("infinity").data then
    some (if neg then PyFloat.neginf else PyFloat.inf)
  else if body = ("nan").data then
    some PyFloat.nan
  else if underscoreOk body then
    let digitsOnly := body.filter (fun c => c != '_')
    match pySplit ['e'] digitsOnly with
    | [m] => (parseMantissa m).map (fun p => mkFinite neg p.1 p.2)
    | [m, e] =>
      match parseMantissa m, parseExp e with
      | some p, some ex =>
        let q := applyExp p.1 p.2 ex
        some (mkFinite neg q.1 q.2)
      | _, _ => none
    | _ => none
  else none

/-- Model of Python's `float(string)` (see the section comment above). -/
def pyFloatParse (s : String) : Option PyFloat :=
  match (pyStrip s).data.map asciiLower with
  | '+' :: r => pyFloatParseCore false r
  | '-' :: r => pyFloatParseCore true r
  | r => pyFloatParseCore false r

/-! ## template_processor.py -/

/-- `TemplateProcessor._process_youtube_link`, branch tail: Python's
`if video_id: return embed else: return youtube_url` (the empty string is
falsy, so an empty extracted id falls back to the raw input). -/
def embedOrRaw (youtube_url vid : String) : String :=
  if vid ≠ "" then "https://www.youtube.com/embed/" ++ vid else youtube_url

/-- `TemplateProcessor._process_youtube_link`.  Empty input yields the fixed
default embed; a `watch?v=` URL is split on the first `v=` and then on `&`;
a `youtu.be/` URL is split on `youtu.be/` and then on `?`; an embed URL is
returned unchanged; anything else is passed through. -/
def process_youtube_link (youtube_url : String) : String :=
  if youtube_url = "" then "https://www.youtube.com/embed/dQw4w9WgXcQ"
  else if listContains ("youtube.com/watch?v=").data youtube_url.data then
    embedOrRaw youtube_url
      ((pySplitStr ((pySplitStr youtube_url "v=").getD 1 "") "&").getD 0 "")
  else if listContains ("youtu.be/").data youtube_url.data then
    embedOrRaw youtube_url
      ((pySplitStr ((pySplitStr youtube_url "youtu.be/").getD 1 "") "?").getD 0 "")
  else if listContains ("youtube.com/embed/").data youtube_url.data then
    youtube_url
  else youtube_url

/-- The `while len(scenes) < 4: scenes.append('1')` loop of
`TemplateProcessor._process_scenes`, fuelled; four iterations always
suffice because the list grows by one element per iteration. -/
def padScenes : Nat → List String → List String
  | 0, l => l
  | n + 1, l => if l.length < 4 then padScenes n (l ++ ["1"]) else l

/-- `TemplateProcessor._process_scenes`: split on commas, trim, pad with
`"1"` up to four entries, keep only the first four.  (The `except` arm of
the source is dead for string inputs: none of these operations throws.) -/
def process_scenes (scenes_input : String) : List String :=
  let scenes := (pySplitStr scenes_input ",").map pyStrip
  (padScenes 4 scenes).take 4

/-- Replaces the `(4#Scene1)` … `(4#Scene4)` placeholders in order
(the `for i, scene in enumerate(scenes, 1)` loop). -/
def replaceScenes : String → List String → Nat → String
  | h, [], _ => h
  | h, sc :: rest, i =>
    replaceScenes (strReplace h ("(4#Scene" ++ toString i ++ ")") sc) rest (i + 1)

/-- `TemplateProcessor.process_template`.  The template file read is
parameterised: `.ok content` is a successful read, `.error e` any
exception, which the source converts into an inline error paragraph. -/
def process_template (tmplRead : Except String String)
    (data : List (String × String)) : String :=
  match tmplRead with
  | .error e => "<p>Error processing template: " ++ e ++ "</p>"
  | .ok template =>
    let h := strReplace template "(1#Poster)" (dictGet data "poster" "DefaultPoster")
    let h := strReplace h "(2#Rating)" (dictGet data "rating" "0.0")
    let h := strReplace h "(3#MovieReview)" (dictGet data "review" "No review available")
    let h := strReplace h "(5#YoutubeEmbedLink)" (process_youtube_link (dictGet data "youtube" ""))
    let h := strReplace h "(6#Year/Month/MovieCode)" (dictGet data "source_data" "2025/01/default")
    replaceScenes h (process_scenes (dictGet data "scenes" "1,2,3,4")) 1

/-- The nine placeholders `TemplateProcessor.validate_template` requires. -/
def required_placeholders : List String :=
  ["(1#Poster)", "(2#Rating)", "(3#MovieReview)",
   "(4#Scene1)", "(4#Scene2)", "(4#Scene3)", "(4#Scene4)",
   "(5#YoutubeEmbedLink)", "(6#Year/Month/MovieCode)"]

/-- `TemplateProcessor.validate_template`, on the template content (the
file read is external; a read failure takes the source's dedicated error
arms and never reaches this check).  Collects, in order, the required
placeholders that do not occur in the content. -/
def validate_template (content : String) : Bool × List String :=
  let missing := required_placeholders.filter (fun p => !(listContains p.data content.data))
  if missing ≠ [] then (false, missing) else (true, [])

/-! ## bot_handlers.py -/

/-- The eight collection steps of `BotHandlers.STEPS`, in order. -/
def STEPS : List String :=
  ["title", "labels", "poster", "rating", "review",
   "scenes", "youtube", "source_data"]

/-- The per-step prompts of `BotHandlers.STEP_PROMPTS`. -/
def STEP_PROMPTS (step : String) : Option String :=
  if step = "title" then some "Please enter the movie title:"
  else if step = "labels" then some "Please enter labels (comma-separated):"
  else if step = "poster" then some "Please enter the poster image name (e.g., MovieName):"
  else if step = "rating" then some "Please enter the movie rating (e.g., 8.5):"
  else if step = "review" then some "Please enter your movie review:"
  else if step = "scenes" then some "Please enter scene numbers (comma-separated, e.g., 1,2,3,4):"
  else if step = "youtube" then some "Please enter the YouTube embed link:"
  else if step = "source_data" then some "Please enter source data (Year/Month/MovieCode, e.g., 2025/08/asd5tg):"
  else none

/-- Outcome of `BotHandlers._validate_input`: acceptance, or rejection
together with the re-prompt message the validator sends. -/
inductive ValidationResult where
  | ok : ValidationResult
  | reject : String → ValidationResult
deriving DecidableEq

/-- `BotHandlers._validate_input`.  Every field must be non-empty; the
rating must survive `float(...)` and the IEEE bound check
`rating < 0 or rating > 10`; scenes must split on commas into exactly four
trimmed tokens; the youtube field must contain a recognized host
substring; the source data must have exactly three slash-separated parts. -/
def validate_input (step_name user_input : String) : ValidationResult :=
  if user_input = "" then
    ValidationResult.reject "❌ Input cannot be empty. Please try again."
  else if step_name = "rating" then
    match pyFloatParse user_input with
    | some rating =>
      if PyFloat.ltB rating (PyFloat.finite 0 0) || PyFloat.ltB (PyFloat.finite 10 0) rating then
        ValidationResult.reject "❌ Rating should be between 0 and 10. Please try again."
      else ValidationResult.ok
    | none => ValidationResult.reject "❌ Please enter a valid number for rating."
  else if step_name = "scenes" then
    if ((pySplitStr user_input ",").map pyStrip).length ≠ 4 then
      ValidationResult.reject "❌ Please provide exactly 4 scene numbers separated by commas (e.g., 1,2,3,4)."
    else ValidationResult.ok
  else if step_name = "youtube" then
    if !(listContains ("youtube.com").data user_input.data)
        && !(listContains ("youtu.be").data user_input.data) then
      ValidationResult.reject "❌ Please provide a valid YouTube link."
    else ValidationResult.ok
  else if step_name = "source_data" then
    if (pySplitStr user_input "/").length ≠ 3 then
      ValidationResult.reject "❌ Please use the format: Year/Month/MovieCode (e.g., 2025/08/asd5tg)"
    else ValidationResult.ok
  else ValidationResult.ok

/-- One user's conversation state (`self.user_states[user_id]`):
`step` is `'step'`, `data` the ordered field dictionary, `in_edit_mode`
and `editing_field` the edit flags (`editing_field = none` models the key
being absent, as after `pop`). -/
structure Session where
  step : Nat
  data : List (String × String)
  in_edit_mode : Bool
  editing_field : Option String
deriving DecidableEq

/-- The session created by `BotHandlers.post_command`. -/
def initSession : Session :=
  { step := 0, data := [], in_edit_mode := false, editing_field := none }

/-- Python's `str.title()` restricted to cased ASCII letters, as used for
the `field.replace('_', ' ').title()` display name. -/
def pyTitleAux : Bool → List Char → List Char
  | _, [] => []
  | startWord, c :: rest =>
    if c.isAlpha then
      (if startWord then c.toUpper else asciiLower c) :: pyTitleAux false rest
    else c :: pyTitleAux true rest

def pyTitle (s : String) : String := String.mk (pyTitleAux true s.data)

/-- The confirmation summary built by `BotHandlers._show_final_confirmation`
(the review is sliced to its first 100 code points, with an ellipsis when
longer). -/
def summaryOf (data : List (String × String)) : String :=
  "📋 **Post Summary:**\n\n"
  ++ "🎬 **Title:** " ++ dictGet data "title" "N/A" ++ "\n"
  ++ "🏷️ **Labels:** " ++ dictGet data "labels" "N/A" ++ "\n"
  ++ "🖼️ **Poster:** " ++ dictGet data "poster" "N/A" ++ "\n"
  ++ "⭐ **Rating:** " ++ dictGet data "rating" "N/A" ++ "\n"
  ++ "📝 **Review:** " ++ String.mk ((dictGet data "review" "N/A").data.take 100)
  ++ (if 100 < (dictGet data "review" "").data.length then "..." else "")
  ++ "\n"
  ++ "🎞️ **Scenes:** " ++ dictGet data "scenes" "N/A" ++ "\n"
  ++ "📺 **YouTube:** " ++ dictGet data "youtube" "N/A" ++ "\n"
  ++ "📂 **Source:** " ++ dictGet data "source_data" "N/A" ++ "\n\n"
  ++ "What would you like to do?"

/-- The message `BotHandlers._ask_next_question` sends for step index `i`. -/
def askMsg (i : Nat) : String :=
  "📝 Step " ++ toString (i + 1) ++ "/" ++ toString STEPS.length ++ ": "
    ++ (STEP_PROMPTS (STEPS.getD i "")).getD ""

/-- The observable effect of one `handle_text` call: the message(s) sent
back to the user.  `silent` is the source falling through without
replying. -/
inductive Reply where
  | askNext : String → Reply
  | reject : String → Reply
  | confirm : String → Reply
  | editSaved : String → String → Reply
  | silent : Reply
deriving DecidableEq

/-- `BotHandlers.handle_text` for a user with an active session: strips the
message text, dispatches on edit mode, validates, stores and advances.
(The missing-session guard of the source returns before touching any
session and is outside this function's domain.) -/
def handle_text (s : Session) (text : String) : Session × Reply :=
  let user_input := pyStrip text
  if s.in_edit_mode then
    match s.editing_field with
    | none => (s, Reply.silent)
    | some field =>
      if field = "" then (s, Reply.silent)
      else
        match validate_input field user_input with
        | ValidationResult.reject m => (s, Reply.reject m)
        | ValidationResult.ok =>
          let d := dictSet s.data field user_input
          ({ s with data := d, in_edit_mode := false, editing_field := none },
            Reply.editSaved
              ("✅ " ++ pyTitle (strReplace field "_" " ") ++ " updated successfully!")
              (summaryOf d))
  else
    if s.step < STEPS.length then
      match validate_input (STEPS.getD s.step "") user_input with
      | ValidationResult.reject m => (s, Reply.reject m)
      | ValidationResult.ok =>
        let d := dictSet s.data (STEPS.getD s.step "") user_input
        let s2 : Session := { s with data := d, step := s.step + 1 }
        if s2.step ≥ STEPS.length then (s2, Reply.confirm (summaryOf d))
        else (s2, Reply.askNext (askMsg s2.step))
    else (s, Reply.silent)

/-- `BotHandlers._start_field_edit`: enters edit mode for one field. -/
def start_field_edit (s : Session) (field : String) : Session :=
  { s with editing_field := some field, in_edit_mode := true }

/-- The session-mutating conversation operations: a session exists after
`/post` (`post_command`), and is rewritten only by `handle_text` and by
the edit-button callback (`_start_field_edit`).  All other handlers either
only read the session or delete it outright. -/
inductive Reachable : Session → Prop
  | start : Reachable initSession
  | text (s : Session) (msg : String) : Reachable s → Reachable (handle_text s msg).1
  | edit (s : Session) (field : String) : Reachable s → Reachable (start_field_edit s field)

/-! ## blogger_client.py -/

/-- The values `BloggerClient.authenticate` can return: `True`,
`"auth_required"`, `"auth_server_failed"`, or `False`.  Authentication
performs file and network I/O, so its outcome is a parameter of the
embedding. -/
inductive AuthResult where
  | ok : AuthResult
  | authRequired : AuthResult
  | authServerFailed : AuthResult
  | failed : AuthResult
deriving DecidableEq

/-- Outcome of the single remote `posts().insert(...).execute()` call:
a response (whose `url` field may be absent), an `HttpError` carrying a
status and body, or any other exception. -/
inductive ExecOutcome where
  | ok : Option String → ExecOutcome
  | httpError : Nat → String → ExecOutcome
  | exn : String → ExecOutcome
deriving DecidableEq

/-- Observable trace of one `BloggerClient.create_post` call: how many
remote create-post calls were issued, which labels list (if any) was
attached to the post body, and the `(success, result)` pair returned. -/
structure CreatePostTrace where
  remote_calls : Nat
  labels_sent : Option (List String)
  result : Bool × String
deriving DecidableEq

/-- `BloggerClient.create_post`.  `serviceReady` models `self.service`
being already built; `auth` the outcome `self.authenticate()` would
produce; `out` the outcome of the one remote call. -/
def create_post (serviceReady : Bool) (auth : AuthResult) (out : ExecOutcome)
    (title content : String) (labels : Option String) : CreatePostTrace :=
  let _ := (title, content)
  if serviceReady = false ∧ auth ≠ AuthResult.ok then
    { remote_calls := 0, labels_sent := none, result := (false, "Authentication failed") }
  else
    let labels_sent : Option (List String) :=
      match labels with
      | some l =>
        if l ≠ "" then some (((pySplitStr l ",").map pyStrip).filter (fun x => x ≠ ""))
        else none
      | none => none
    match out with
    | ExecOutcome.ok url =>
      { remote_calls := 1, labels_sent := labels_sent,
        result := (true, url.getD "Unknown URL") }
    | ExecOutcome.httpError status body =>
      { remote_calls := 1, labels_sent := labels_sent,
        result := (false, "HTTP Error: " ++ toString status ++ " - " ++ body) }
    | ExecOutcome.exn m =>
      { remote_calls := 1, labels_sent := labels_sent,
        result := (false, "Unexpected error: " ++ m) }

/-- The authentication walkthrough `_publish_post` sends when an auth URL
is available. -/
def authRequiredMsg (auth_url : String) : String :=
  "🔐 **Authentication Required**\n\n"
  ++ "To publish posts to Blogger, you need to authorize this application.\n\n"
  ++ "**Please follow these steps:**\n"
  ++ "1. Click this URL: " ++ auth_url ++ "\n\n"
  ++ "2. Sign in with your Google account\n"
  ++ "3. Grant permission to access Blogger\n"
  ++ "4. You\x27ll be redirected to a success page\n"
  ++ "5. Return here and use /complete_auth to finish setup\n\n"
  ++ "**Note:** This is a one-time setup process."

/-- `BotHandlers._publish_post` on the `post_confirm` button.  Renders the
template, invokes the publishing client (whose external interactions are
the `ready` / `auth` / `out` parameters), reports the outcome and deletes
the session (`none` in the first component = back to IDLE).  The only path
keeping the session alive is the `except` arm, reachable in-process solely
through the `KeyError` on `data['title']`. -/
def publish_post (tmplRead : Except String String) (ready : Bool)
    (auth : AuthResult) (out : ExecOutcome) (auth_url : Option String)
    (s : Session) : Option Session × String :=
  match dictLookup s.data "title" with
  | none => (some s, "❌ An error occurred while publishing:\n\x27title\x27")
  | some title =>
    let html := process_template tmplRead s.data
    let tr := create_post ready auth out title html (dictLookup s.data "labels")
    if tr.result.1 then
      (none, "✅ Post published successfully!\n\n🔗 URL: " ++ tr.result.2)
    else if tr.result.2 = "Authentication failed" then
      match auth_url with
      | some u => (none, authRequiredMsg u)
      | none =>
        (none, "❌ Authentication failed. Please use /auth command to set up Google Blogger access.")
    else
      (none, "❌ Failed to publish post:\n" ++ tr.result.2)

/-! ## Concrete fixtures used in counterexamples and witnesses -/

/-- A template document containing every required placeholder except
`(2#Rating)`. -/
def docMissingRating : String :=
  "(1#Poster)(3#MovieReview)(4#Scene1)(4#Scene2)(4#Scene3)(4#Scene4)(5#YoutubeEmbedLink)(6#Year/Month/MovieCode)"

/-- A session at the last collection step whose review is 101 characters
long (one more than the summary slice keeps). -/
def longReviewSession : Session :=
  { step := 7,
    data := [("title", "T"), ("labels", "L"), ("poster", "P"), ("rating", "8"),
             ("review", String.mk (List.replicate 101 'a')),
             ("scenes", "1,2,3,4"), ("youtube", "https://youtu.be/x")],
    in_edit_mode := false, editing_field := none }

/-- A completed session sitting at the confirmation stage. -/
def confirmedSession : Session :=
  { step := 8,
    data := [("title", "T"), ("labels", "L"), ("poster", "P"), ("rating", "8"),
             ("review", "R"), ("scenes", "1,2,3,4"),
             ("youtube", "https://youtu.be/x"), ("source_data", "2025/08/abc")],
    in_edit_mode := false, editing_field := none }

/-- A session at the last collection step with a short review. -/
def penultimateSession : Session :=
  { step := 7,
    data := [("title", "Tw"), ("labels", "Lw"), ("poster", "Pw"), ("rating", "9"),
             ("review", "Rw"), ("scenes", "1,2,3,4"), ("youtube", "https://youtu.be/w")],
    in_edit_mode := false, editing_field := none }

/-- Another completed session (used to exercise the silent text path). -/
def doneSession : Session :=
  { step := 8,
    data := [("title", "T2"), ("labels", "L2"), ("poster", "P2"), ("rating", "7"),
             ("review", "R2"), ("scenes", "5,6,7,8"),
             ("youtube", "https://youtu.be/y"), ("source_data", "2024/01/xyz")],
    in_edit_mode := false, editing_field := none }

/-! ## String and dictionary lemmas -/

theorem strDataAppend (a b : String) : (a ++ b).data = a.data ++ b.data := by
  cases a; cases b; rfl

theorem strDataMk (l : List Char) : (String.mk l).data = l := rfl

theorem strEqOfData {a b : String} (h : a.data = b.data) : a = b := by
  cases a; cases b; exact congrArg String.mk h

theorem listPrefixOf_self_append (x r : List Char) : listPrefixOf x (x ++ r) = true := by
  induction x with
  | nil => rfl
  | cons c cs ih => simp [listPrefixOf, ih]

theorem listContains_of_prefix {x h : List Char} (hp : listPrefixOf x h = true) :
    listContains x h = true := by
  cases h with
  | nil => simpa [listContains] using hp
  | cons c t => simp [listContains, hp]

theorem listContains_append_left {x t : List Char} (a : List Char)
    (h : listContains x t = true) : listContains x (a ++ t) = true := by
  induction a with
  | nil => simpa using h
  | cons c cs ih => simp [listContains, ih]

theorem listContains_self_append (x r : List Char) : listContains x (x ++ r) = true :=
  listContains_of_prefix (listPrefixOf_self_append x r)

theorem subStr_of_decomp {v hay : String} (p q : String) (h : hay = p ++ (v ++ q)) :
    SubStr v hay := by
  subst h
  show listContains v.data (p ++ (v ++ q)).data = true
  rw [strDataAppend, strDataAppend]
  exact listContains_append_left p.data (listContains_self_append v.data q.data)

theorem dictGet_set_self (d : List (String × String)) (k v dflt : String) :
    dictGet (dictSet d k v) k dflt = v := by
  induction d with
  | nil => simp [dictSet, dictGet]
  | cons kv rest ih =>
    obtain ⟨k0, v0⟩ := kv
    by_cases hk : k0 = k
    · simp [dictSet, dictGet, hk]
    · simp [dictSet, dictGet, hk, ih]

theorem dictGet_set_other (d : List (String × String)) (k k' v dflt : String)
    (hne : k' ≠ k) : dictGet (dictSet d k v) k' dflt = dictGet d k' dflt := by
  induction d with
  | nil =>
    have : k ≠ k' := fun h => hne h.symm
    simp [dictSet, dictGet, this]
  | cons kv rest ih =>
    obtain ⟨k0, v0⟩ := kv
    by_cases hk : k0 = k
    · subst hk
      have : k0 ≠ k' := fun h => hne h.symm
      simp [dictSet, dictGet, this]
    · by_cases hk' : k0 = k'
      · simp [dictSet, dictGet, hk, hk', hne]
      · simp [dictSet, dictGet, hk, hk', ih]

/-! ## Structure of the confirmation summary -/

theorem summary_contains_title (d : List (String × String)) :
    SubStr (dictGet d "title" "N/A") (summaryOf d) := by
  show listContains _ _ = true
  simp only [summaryOf, strDataAppend, strDataMk, List.append_assoc]
  iterate 2 apply listContains_append_left
  exact listContains_self_append _ _

theorem summary_contains_labels (d : List (String × String)) :
    SubStr (dictGet d "labels" "N/A") (summaryOf d) := by
  show listContains _ _ = true
  simp only [summaryOf, strDataAppend, strDataMk, List.append_assoc]
  iterate 5 apply listContains_append_left
  exact listContains_self_append _ _

theorem summary_contains_poster (d : List (String × String)) :
    SubStr (dictGet d "poster" "N/A") (summaryOf d) := by
  show listContains _ _ = true
  simp only [summaryOf, strDataAppend, strDataMk, List.append_assoc]
  iterate 8 apply listContains_append_left
  exact listContains_self_append _ _

theorem summary_contains_rating (d : List (String × String)) :
    SubStr (dictGet d "rating" "N/A") (summaryOf d) := by
  show listContains _ _ = true
  simp only [summaryOf, strDataAppend, strDataMk, List.append_assoc]
  iterate 11 apply listContains_append_left
  exact listContains_self_append _ _

theorem summary_contains_review_slice (d : List (String × String)) :
    SubStr (String.mk ((dictGet d "review" "N/A").data.take 100)) (summaryOf d) := by
  show listContains _ _ = true
  simp only [summaryOf, strDataAppend, strDataMk, List.append_assoc]
  iterate 14 apply listContains_append_left
  exact listContains_self_append _ _

theorem summary_contains_scenes (d : List (String × String)) :
    SubStr (dictGet d "scenes" "N/A") (summaryOf d) := by
  show listContains _ _ = true
  simp only [summaryOf, strDataAppend, strDataMk, List.append_assoc]
  iterate 18 apply listContains_append_left
  exact listContains_self_append _ _

theorem summary_contains_youtube (d : List (String × String)) :
    SubStr (dictGet d "youtube" "N/A") (summaryOf d) := by
  show listContains _ _ = true
  simp only [summaryOf, strDataAppend, strDataMk, List.append_assoc]
  iterate 21 apply listContains_append_left
  exact listContains_self_append _ _

theorem summary_contains_source_data (d : List (String × String)) :
    SubStr (dictGet d "source_data" "N/A") (summaryOf d) := by
  show listContains _ _ = true
  simp only [summaryOf, strDataAppend, strDataMk, List.append_assoc]
  iterate 24 apply listContains_append_left
  exact listContains_self_append _ _

/-! ## Scene padding -/

theorem padScenes_length_ge (n : Nat) : ∀ l : List String,
    4 ≤ l.length + n → 4 ≤ (padScenes n l).length := by
  induction n with
  | zero => intro l h; simpa [padScenes] using h
  | succ k ih =>
    intro l h
    unfold padScenes
    split
    · apply ih
      simp
      omega
    · omega

/-! ## Step bound of the text handler -/

theorem handle_text_step_le (s : Session) (msg : String)
    (h : s.step ≤ STEPS.length) : (handle_text s msg).1.step ≤ STEPS.length := by
  unfold handle_text
  dsimp only
  split
  · split
    · exact h
    · split
      · exact h
      · split
        · exact h
        · exact h
  · split
    · rename_i hlt
      split
      · exact h
      · split
        · simpa using hlt
        · simpa using hlt
    · exact h

/-! ## Claims -/

/-- Claim C1 (code bug).  The spec says the rating validator accepts a
string iff it parses as a real number lying in `[0, 10]`.  The code
instead runs `float(user_input)` and rejects only when
`rating < 0 or rating > 10`: the input `"nan"` parses to IEEE NaN, both
comparisons are false, and the validator accepts it even though NaN is
not a real number in `[0, 10]`.  The surrounding conjuncts show that the
two rejection messages do fire on ordinary out-of-range and non-numeric
inputs, confirming that accepting `"nan"` contradicts the validator's own
re-prompt text. -/
theorem rating_validator_accepts_nan :
    pyFloatParse "nan" = some PyFloat.nan
  ∧ validate_input "rating" "nan" = ValidationResult.ok
  ∧ validate_input "rating" "11"
      = ValidationResult.reject "❌ Rating should be between 0 and 10. Please try again."
  ∧ validate_input "rating" "8.5" = ValidationResult.ok
  ∧ validate_input "rating" "abc"
      = ValidationResult.reject "❌ Please enter a valid number for rating." :=
  ⟨by decide, by decide, by decide, by decide, by decide⟩

/-- Claim C2 (confirmed).  In state COLLECTING(i) with `i < N` (no edit
mode), a valid input stores the stripped message text under the `i`-th
field name and advances to COLLECTING(i+1) — announcing the next prompt
when `i+1 < N` and the confirmation summary when `i+1 = N` — while an
invalid input returns the session completely unchanged together with the
validator's re-prompt message. -/
theorem collecting_step_transition (s : Session) (msg : String)
    (hedit : s.in_edit_mode = false) (hstep : s.step < STEPS.length) :
    (∀ m, validate_input (STEPS.getD s.step "") (pyStrip msg) = ValidationResult.reject m →
        handle_text s msg = (s, Reply.reject m))
  ∧ (validate_input (STEPS.getD s.step "") (pyStrip msg) = ValidationResult.ok →
        (handle_text s msg).1
            = { s with
                step := s.step + 1,
                data := dictSet s.data (STEPS.getD s.step "") (pyStrip msg) }
      ∧ (s.step + 1 < STEPS.length →
            (handle_text s msg).2 = Reply.askNext (askMsg (s.step + 1)))
      ∧ (s.step + 1 = STEPS.length →
            (handle_text s msg).2
              = Reply.confirm (summaryOf (dictSet s.data (STEPS.getD s.step "") (pyStrip msg))))) := by
  unfold handle_text
  rw [hedit]
  simp only [Bool.false_eq_true, if_false, if_pos hstep]
  constructor
  · intro m hm
    rw [hm]
  · intro hok
    rw [hok]
    dsimp only
    refine ⟨?_, ?_, ?_⟩
    · split <;> rfl
    · intro hlt
      rw [if_neg (by omega)]
    · intro heq
      rw [if_pos (by omega)]

/-- Witness for C2: the fresh session accepting the title `"Inception"`. -/
theorem collecting_step_transition_witness :
    initSession.in_edit_mode = false ∧ initSession.step < STEPS.length
  ∧ ((∀ m, validate_input (STEPS.getD initSession.step "") (pyStrip "Inception")
          = ValidationResult.reject m →
        handle_text initSession "Inception" = (initSession, Reply.reject m))
  ∧ (validate_input (STEPS.getD initSession.step "") (pyStrip "Inception") = ValidationResult.ok →
        (handle_text initSession "Inception").1
            = { initSession with
                step := initSession.step + 1,
                data := dictSet initSession.data (STEPS.getD initSession.step "")
                  (pyStrip "Inception") }
      ∧ (initSession.step + 1 < STEPS.length →
            (handle_text initSession "Inception").2
              = Reply.askNext (askMsg (initSession.step + 1)))
      ∧ (initSession.step + 1 = STEPS.length →
            (handle_text initSession "Inception").2
              = Reply.confirm (summaryOf (dictSet initSession.data
                  (STEPS.getD initSession.step "") (pyStrip "Inception")))))) :=
  ⟨rfl, by decide, collecting_step_transition initSession "Inception" rfl (by decide)⟩

/-- Claim C4 (confirmed).  Scene processing always returns exactly four
tokens: the comma-split, trimmed token list is padded with the literal
`"1"` and truncated to length four, and the two example inputs from the
spec produce exactly the listed scene lists. -/
theorem scene_processing_spec :
    (∀ s : String, (process_scenes s).length = 4)
  ∧ process_scenes "1,2" = ["1", "2", "1", "1"]
  ∧ process_scenes "1,2,3,4,5" = ["1", "2", "3", "4"] := by
  refine ⟨?_, by decide, by decide⟩
  intro s
  unfold process_scenes
  have h := padScenes_length_ge 4 ((pySplitStr s ",").map pyStrip) (by omega)
  simp [List.length_take]
  omega

/-- Claim C9 (confirmed).  The step index starts at `0` when
`post_command` creates a session, and every session reachable through the
session-mutating handlers keeps `current_step_index` within
`[0, N]` (`N = 8`; the lower bound is enforced by the `Nat` carrier, the
source never decrements the index). -/
theorem step_index_invariant :
    initSession.step = 0 ∧ ∀ s : Session, Reachable s → s.step ≤ STEPS.length := by
  refine ⟨rfl, ?_⟩
  intro s h
  induction h with
  | start => decide
  | text s' msg _ ih => exact handle_text_step_le s' msg ih
  | edit s' f _ ih => simpa [start_field_edit] using ih

/-- Witness for C9: the freshly created session is reachable and obeys
the bound. -/
theorem step_index_invariant_witness :
    Reachable initSession ∧ initSession.step ≤ STEPS.length :=
  ⟨Reachable.start, step_index_invariant.2 initSession Reachable.start⟩

/-- Claim C10 (confirmed).  A session that has collected every field
(step index `N`) and is not in edit mode ignores any free-text message:
`handle_text` returns the session unchanged and sends nothing. -/
theorem completed_session_ignores_text (s : Session) (msg : String)
    (hedit : s.in_edit_mode = false) (hstep : s.step = STEPS.length) :
    handle_text s msg = (s, Reply.silent) := by
  unfold handle_text
  rw [hedit, hstep]
  simp

/-- Witness for C10: a fully collected session ignoring a stray message. -/
theorem completed_session_ignores_text_witness :
    doneSession.in_edit_mode = false ∧ doneSession.step = STEPS.length
  ∧ handle_text doneSession "extra text" = (doneSession, Reply.silent) :=
  ⟨rfl, by decide, completed_session_ignores_text doneSession "extra text" rfl (by decide)⟩

/-- Claim C3 (corrected).  Video-link processing maps the `watch?v=` and
`youtu.be` shapes to canonical embed URLs (the spec's two examples are
reproduced verbatim), passes an embed-shaped input through unchanged, and
passes any other non-empty input through unchanged — but the empty string,
which matches none of the three shapes, is NOT passed through: it becomes
the fixed default embed URL. -/
theorem youtube_link_processing : ∀ url : String,
    ((url ≠ "" → SubStr "youtube.com/embed/" url →
      ¬ SubStr "youtube.com/watch?v=" url → ¬ SubStr "youtu.be/" url →
      process_youtube_link url = url)
  ∧ (url ≠ "" → ¬ SubStr "youtube.com/watch?v=" url → ¬ SubStr "youtu.be/" url →
      ¬ SubStr "youtube.com/embed/" url → process_youtube_link url = url))
  ∧ process_youtube_link "https://youtu.be/abc123?t=5" = "https://www.youtube.com/embed/abc123"
  ∧ process_youtube_link "https://youtube.com/watch?v=xyz&list=z"
      = "https://www.youtube.com/embed/xyz"
  ∧ process_youtube_link "" = "https://www.youtube.com/embed/dQw4w9WgXcQ" := by
  intro url
  refine ⟨⟨?_, ?_⟩, by decide, by decide, by decide⟩
  · intro hne h3 h1 h2
    have h1' : ¬(listContains ("youtube.com/watch?v=").data url.data = true) := h1
    have h2' : ¬(listContains ("youtu.be/").data url.data = true) := h2
    have h3' : listContains ("youtube.com/embed/").data url.data = true := h3
    unfold process_youtube_link
    rw [if_neg hne, if_neg h1', if_neg h2', if_pos h3']
  · intro hne h1 h2 h3
    have h1' : ¬(listContains ("youtube.com/watch?v=").data url.data = true) := h1
    have h2' : ¬(listContains ("youtu.be/").data url.data = true) := h2
    have h3' : ¬(listContains ("youtube.com/embed/").data url.data = true) := h3
    unfold process_youtube_link
    rw [if_neg hne, if_neg h1', if_neg h2', if_neg h3']

/-- Counterexample for C3: the empty string matches none of the three
recognized shapes, yet it is not passed through unchanged — the processor
substitutes the fixed default embed URL. -/
theorem youtube_empty_input_counterexample :
    (¬ SubStr "youtube.com/watch?v=" "" ∧ ¬ SubStr "youtu.be/" ""
      ∧ ¬ SubStr "youtube.com/embed/" "")
  ∧ process_youtube_link "" = "https://www.youtube.com/embed/dQw4w9WgXcQ"
  ∧ process_youtube_link "" ≠ "" :=
  ⟨⟨by decide, by decide, by decide⟩, by decide, by decide⟩

/-- Witness for C3: an embed-shaped URL is returned unchanged. -/
theorem youtube_link_processing_witness :
    ("https://www.youtube.com/embed/xyz" ≠ ""
  ∧ SubStr "youtube.com/embed/" "https://www.youtube.com/embed/xyz"
  ∧ ¬ SubStr "youtube.com/watch?v=" "https://www.youtube.com/embed/xyz"
  ∧ ¬ SubStr "youtu.be/" "https://www.youtube.com/embed/xyz")
  ∧ process_youtube_link "https://www.youtube.com/embed/xyz"
      = "https://www.youtube.com/embed/xyz" :=
  ⟨⟨by decide, by decide, by decide, by decide⟩,
    (youtube_link_processing "https://www.youtube.com/embed/xyz").1.1
      (by decide) (by decide) (by decide) (by decide)⟩

/-- Claim C5 (corrected).  A session at the last collection step that
receives a valid `source_data` input moves to the confirmation stage
(step index `N`, confirmation summary sent) and the summary contains the
collected `title`, `labels`, `poster`, `rating`, `scenes`, `youtube`
values and the freshly stored `source_data` — but only the first 100
characters of the review (so the full review value appears exactly when
it is at most 100 characters long). -/
theorem final_step_confirmation (s : Session) (msg : String)
    (hedit : s.in_edit_mode = false) (hstep : s.step = 7)
    (hval : validate_input "source_data" (pyStrip msg) = ValidationResult.ok) :
    (handle_text s msg).1.step = STEPS.length
  ∧ (handle_text s msg).2 = Reply.confirm (summaryOf (handle_text s msg).1.data)
  ∧ SubStr (dictGet s.data "title" "N/A") (summaryOf (handle_text s msg).1.data)
  ∧ SubStr (dictGet s.data "labels" "N/A") (summaryOf (handle_text s msg).1.data)
  ∧ SubStr (dictGet s.data "poster" "N/A") (summaryOf (handle_text s msg).1.data)
  ∧ SubStr (dictGet s.data "rating" "N/A") (summaryOf (handle_text s msg).1.data)
  ∧ SubStr (String.mk ((dictGet s.data "review" "N/A").data.take 100))
      (summaryOf (handle_text s msg).1.data)
  ∧ SubStr (dictGet s.data "scenes" "N/A") (summaryOf (handle_text s msg).1.data)
  ∧ SubStr (dictGet s.data "youtube" "N/A") (summaryOf (handle_text s msg).1.data)
  ∧ SubStr (pyStrip msg) (summaryOf (handle_text s msg).1.data) := by
  obtain ⟨st, dt, em, ef⟩ := s
  obtain rfl : em = false := hedit
  obtain rfl : st = 7 := hstep
  have hmain : handle_text ⟨7, dt, false, ef⟩ msg
      = (⟨8, dictSet dt "source_data" (pyStrip msg), false, ef⟩,
          Reply.confirm (summaryOf (dictSet dt "source_data" (pyStrip msg)))) := by
    unfold handle_text
    dsimp only
    rw [show STEPS.getD (7 : Nat) "" = "source_data" from rfl, hval]
    rfl
  have hdata : (handle_text ⟨7, dt, false, ef⟩ msg).1.data
      = dictSet dt "source_data" (pyStrip msg) := by rw [hmain]
  refine ⟨by rw [hmain]; rfl, by rw [hmain], ?_, ?_, ?_, ?_, ?_, ?_, ?_, ?_⟩
  · have h := summary_contains_title (dictSet dt "source_data" (pyStrip msg))
    rw [dictGet_set_other dt "source_data" "title" (pyStrip msg) "N/A" (by decide)] at h
    rw [hdata]
    exact h
  · have h := summary_contains_labels (dictSet dt "source_data" (pyStrip msg))
    rw [dictGet_set_other dt "source_data" "labels" (pyStrip msg) "N/A" (by decide)] at h
    rw [hdata]
    exact h
  · have h := summary_contains_poster (dictSet dt "source_data" (pyStrip msg))
    rw [dictGet_set_other dt "source_data" "poster" (pyStrip msg) "N/A" (by decide)] at h
    rw [hdata]
    exact h
  · have h := summary_contains_rating (dictSet dt "source_data" (pyStrip msg))
    rw [dictGet_set_other dt "source_data" "rating" (pyStrip msg) "N/A" (by decide)] at h
    rw [hdata]
    exact h
  · have h := summary_contains_review_slice (dictSet dt "source_data" (pyStrip msg))
    rw [dictGet_set_other dt "source_data" "review" (pyStrip msg) "N/A" (by decide)] at h
    rw [hdata]
    exact h
  · have h := summary_contains_scenes (dictSet dt "source_data" (pyStrip msg))
    rw [dictGet_set_other dt "source_data" "scenes" (pyStrip msg) "N/A" (by decide)] at h
    rw [hdata]
    exact h
  · have h := summary_contains_youtube (dictSet dt "source_data" (pyStrip msg))
    rw [dictGet_set_other dt "source_data" "youtube" (pyStrip msg) "N/A" (by decide)] at h
    rw [hdata]
    exact h
  · have h := summary_contains_source_data (dictSet dt "source_data" (pyStrip msg))
    rw [dictGet_set_self dt "source_data" (pyStrip msg) "N/A"] at h
    rw [hdata]
    exact h

set_option maxRecDepth 100000 in
/-- Counterexample for C5: with a 101-character review collected, the
confirmation summary produced on the valid final input does NOT contain
the review value (only its first 100 characters followed by an ellipsis),
so the summary does not contain all 8 collected field values. -/
theorem long_review_summary_counterexample :
    (handle_text longReviewSession "2025/08/abc").2
        = Reply.confirm (summaryOf (handle_text longReviewSession "2025/08/abc").1.data)
  ∧ dictGet (handle_text longReviewSession "2025/08/abc").1.data "review" "N/A"
        = String.mk (List.replicate 101 'a')
  ∧ ¬ SubStr (String.mk (List.replicate 101 'a'))
        (summaryOf (handle_text longReviewSession "2025/08/abc").1.data) :=
  ⟨by decide, by decide, by decide⟩

set_option maxRecDepth 100000 in
/-- Witness for C5: a concrete session at the last step with a short
review, accepting `"2025/08/abc"`. -/
theorem final_step_confirmation_witness :
    (penultimateSession.in_edit_mode = false ∧ penultimateSession.step = 7
  ∧ validate_input "source_data" (pyStrip "2025/08/abc") = ValidationResult.ok)
  ∧ ((handle_text penultimateSession "2025/08/abc").1.step = STEPS.length
  ∧ (handle_text penultimateSession "2025/08/abc").2
      = Reply.confirm (summaryOf (handle_text penultimateSession "2025/08/abc").1.data)
  ∧ SubStr (dictGet penultimateSession.data "title" "N/A")
      (summaryOf (handle_text penultimateSession "2025/08/abc").1.data)
  ∧ SubStr (dictGet penultimateSession.data "labels" "N/A")
      (summaryOf (handle_text penultimateSession "2025/08/abc").1.data)
  ∧ SubStr (dictGet penultimateSession.data "poster" "N/A")
      (summaryOf (handle_text penultimateSession "2025/08/abc").1.data)
  ∧ SubStr (dictGet penultimateSession.data "rating" "N/A")
      (summaryOf (handle_text penultimateSession "2025/08/abc").1.data)
  ∧ SubStr (String.mk ((dictGet penultimateSession.data "review" "N/A").data.take 100))
      (summaryOf (handle_text penultimateSession "2025/08/abc").1.data)
  ∧ SubStr (dictGet penultimateSession.data "scenes" "N/A")
      (summaryOf (handle_text penultimateSession "2025/08/abc").1.data)
  ∧ SubStr (dictGet penultimateSession.data "youtube" "N/A")
      (summaryOf (handle_text penultimateSession "2025/08/abc").1.data)
  ∧ SubStr (pyStrip "2025/08/abc")
      (summaryOf (handle_text penultimateSession "2025/08/abc").1.data)) :=
  ⟨⟨rfl, rfl, by decide⟩,
    final_step_confirmation penultimateSession "2025/08/abc" rfl rfl (by decide)⟩

/-- Claim C6 (confirmed).  On the confirm button, `_publish_post` renders
and publishes, then deletes the session: whatever the outcome of the
remote create-post call (success, transport error, any other failure) and
whatever the template read produced, the session is removed and the user
returns to IDLE.  The CONFIRM-state hypotheses (all steps collected, in
particular a stored title) keep the embedding inside the source's `try`
arm, whose every branch ends in the deletion. -/
theorem publish_terminates_session (tmplRead : Except String String) (ready : Bool)
    (auth : AuthResult) (out : ExecOutcome) (auth_url : Option String)
    (s : Session) (t : String)
    (_hconfirm : s.step = STEPS.length) (htitle : dictLookup s.data "title" = some t) :
    (publish_post tmplRead ready auth out auth_url s).1 = none := by
  unfold publish_post
  rw [htitle]
  dsimp only
  split
  · rfl
  · split
    · split <;> rfl
    · rfl

/-- Witness for C6: a confirmed session is deleted even when the client
still needs authorization and the template read failed. -/
theorem publish_terminates_session_witness :
    (confirmedSession.step = STEPS.length
  ∧ dictLookup confirmedSession.data "title" = some "T")
  ∧ (publish_post (Except.error "e") false AuthResult.authRequired
      (ExecOutcome.ok none) none confirmedSession).1 = none :=
  ⟨⟨by decide, by decide⟩,
    publish_terminates_session (Except.error "e") false AuthResult.authRequired
      (ExecOutcome.ok none) none confirmedSession "T" (by decide) (by decide)⟩

/-- Claim C7 (confirmed).  `create_post`: when the service is not ready
and the auto-triggered authentication does not succeed, it returns the
failure pair without issuing any remote call (it does not block on
authorization); otherwise it issues exactly one remote create-post call,
attaches the comma-split, trimmed, empty-filtered label list whenever a
non-empty labels string is present, reports status and body on an
`HttpError`, and a generic reason on any other exception. -/
theorem create_post_contract (ready : Bool) (auth : AuthResult) (out : ExecOutcome)
    (title content : String) (labels : Option String) :
    ((ready = false ∧ auth ≠ AuthResult.ok) →
        (create_post ready auth out title content labels).result
            = (false, "Authentication failed")
      ∧ (create_post ready auth out title content labels).remote_calls = 0)
  ∧ ((ready = true ∨ auth = AuthResult.ok) →
        (create_post ready auth out title content labels).remote_calls = 1
      ∧ (∀ l, labels = some l → l ≠ "" →
          (create_post ready auth out title content labels).labels_sent
            = some (((pySplitStr l ",").map pyStrip).filter (fun x => x ≠ "")))
      ∧ (∀ st body, out = ExecOutcome.httpError st body →
          (create_post ready auth out title content labels).result
            = (false, "HTTP Error: " ++ toString st ++ " - " ++ body))
      ∧ (∀ m, out = ExecOutcome.exn m →
          (create_post ready auth out title content labels).result
            = (false, "Unexpected error: " ++ m))) := by
  constructor
  · intro hg
    unfold create_post
    rw [if_pos hg]
    exact ⟨rfl, rfl⟩
  · intro hor
    have hng : ¬(ready = false ∧ auth ≠ AuthResult.ok) := by
      rcases hor with h | h
      · simp [h]
      · simp [h]
    unfold create_post
    rw [if_neg hng]
    dsimp only
    refine ⟨?_, ?_, ?_, ?_⟩
    · cases out <;> rfl
    · intro l hl hlne
      rw [hl]
      dsimp only
      rw [if_pos hlne]
      cases out <;> rfl
    · intro st body ho
      rw [ho]
    · intro m ho
      rw [ho]

/-- Witness for C7: a not-ready client with authorization still required
fails without a remote call, and a ready client's transport error and
label parsing behave as stated. -/
theorem create_post_contract_witness :
    (false = false ∧ AuthResult.authRequired ≠ AuthResult.ok)
  ∧ (create_post false AuthResult.authRequired (ExecOutcome.ok none) "t" "c" none).result
      = (false, "Authentication failed")
  ∧ (create_post false AuthResult.authRequired (ExecOutcome.ok none) "t" "c" none).remote_calls = 0
  ∧ (create_post true AuthResult.ok (ExecOutcome.httpError 403 "forbidden") "t" "c"
      (some "a, b,")).result = (false, "HTTP Error: " ++ toString 403 ++ " - " ++ "forbidden")
  ∧ (create_post true AuthResult.ok (ExecOutcome.httpError 403 "forbidden") "t" "c"
      (some "a, b,")).labels_sent = some ["a", "b"] := by
  refine ⟨⟨rfl, by decide⟩, ?_, ?_, ?_, ?_⟩
  · exact ((create_post_contract false AuthResult.authRequired (ExecOutcome.ok none)
      "t" "c" none).1 ⟨rfl, by decide⟩).1
  · exact ((create_post_contract false AuthResult.authRequired (ExecOutcome.ok none)
      "t" "c" none).1 ⟨rfl, by decide⟩).2
  · exact ((create_post_contract true AuthResult.ok (ExecOutcome.httpError 403 "forbidden")
      "t" "c" (some "a, b,")).2 (Or.inl rfl)).2.2.1 403 "forbidden" rfl
  · have h := ((create_post_contract true AuthResult.ok (ExecOutcome.httpError 403 "forbidden")
      "t" "c" (some "a, b,")).2 (Or.inl rfl)).2.1 "a, b," rfl (by decide)
    rw [h]
    decide

/-- Claim C8 (confirmed).  Template validation is total on any document
content (its file-read failure arms are separate and also return instead
of raising) and returns exactly the required placeholders that are absent
from the document, in particular flagging a document missing only
`(2#Rating)` as not valid with exactly that missing list. -/
theorem validate_template_spec :
    (∀ content : String,
        ((validate_template content).1 = true ↔ (validate_template content).2 = [])
      ∧ (∀ p : String, p ∈ (validate_template content).2 ↔
            (p ∈ required_placeholders ∧ ¬ SubStr p content)))
  ∧ validate_template docMissingRating = (false, ["(2#Rating)"]) := by
  refine ⟨?_, by decide⟩
  intro content
  have h2 : (validate_template content).2
      = required_placeholders.filter (fun p => !(listContains p.data content.data)) := by
    unfold validate_template
    dsimp only
    split
    · rfl
    · rename_i hn
      exact (not_ne_iff.mp hn).symm
  constructor
  · unfold validate_template
    dsimp only
    split
    · rename_i hn
      simp [hn]
    · simp
  · intro p
    rw [h2, List.mem_filter]
    simp [SubStr]

/-- Witness for C8: the placeholder `(2#Rating)` is in the missing list
of the deficient document precisely because it does not occur in it. -/
theorem validate_template_spec_witness :
    "(2#Rating)" ∈ (validate_template docMissingRating).2
  ∧ ("(2#Rating)" ∈ required_placeholders ∧ ¬ SubStr "(2#Rating)" docMissingRating) :=
  ⟨by decide, ((validate_template_spec.1 docMissingRating).2 "(2#Rating)").mp (by decide)⟩
